import Mathlib

/-!
Shallow embedding of the FSFFB X-Plane plugin telemetry bridge
(src/xplane-plugin/FSFFB-XPP.cpp) together with proofs about its wire
codec, source registry, snapshot builder and override state machine.

Modelling conventions.

* C++ `float`/`double` values are modelled as exact fractions (`Frac`: an
  integer numerator over a positive natural denominator, not necessarily
  reduced, with executable arithmetic; `Frac.toRat` interprets one as the
  rational it denotes).  The unit-conversion constants are the exact
  decimals written in the source.  `std::ostream` fixed-point formatting is
  modelled by exact decimal rounding (half away from zero); none of the
  theorems below touches an input where binary-float rounding and
  exact-fraction rounding differ.
* `std::map<std::string, T>` is modelled as an association list updated by
  insert-or-replace (`mapUpsert`).  No theorem relies on the (sorted)
  iteration order of the C++ map, only on its mapping.
* Every X-Plane SDK read (`XPLMGetData*`, `XPLMGetElapsedTime`,
  `XPLMGetNthAircraftModel`, `XPLMFindDataRef`) is a field of a pure
  oracle `Env`; a dataref handle is represented by its path string.
  `XPLMSetDatai`/`XPLMSetDataf` calls are recorded in a `SimWrite` trace.
* `std::stof` / `std::stoi` throw `std::invalid_argument` on input with no
  numeric prefix, and the plugin has no try/catch anywhere on the receive
  path; a thrown exception is modelled by the result `none` (the whole
  processing step aborts and the exception escapes `ReceiveThread`).
  The numeric parser is modelled for plain decimal notation, which covers
  every literal appearing in the theorems below.
* Datagrams are assumed free of the newline character, so each
  `std::getline` stops only at its explicit delimiter or at end of input.
-/

/-- Exact-fraction model of a C++ `float`/`double` value: an integer
numerator over a positive natural denominator, not necessarily reduced.
All operations are plain structural arithmetic, so closed terms evaluate
inside the kernel. -/
structure Frac where
  num : ℤ
  den : ℕ+
deriving Repr, DecidableEq

instance : OfNat Frac n := ⟨⟨(n : ℤ), 1⟩⟩

instance : Neg Frac := ⟨fun q => ⟨-q.num, q.den⟩⟩

instance : Mul Frac := ⟨fun a b => ⟨a.num * b.num, a.den * b.den⟩⟩

/-- The rational number a `Frac` denotes. -/
def Frac.toRat (q : Frac) : ℚ := (q.num : ℚ) / ((q.den : ℕ) : ℚ)

/-- A `float` compares equal to `0.0f` exactly when the numerator is 0
(the denominator is positive by construction). -/
def Frac.isZero (q : Frac) : Prop := q.num = 0

instance (q : Frac) : Decidable q.isZero := inferInstanceAs (Decidable (q.num = 0))

/-- Round the denoted value to the nearest integer, ties away from zero:
for `0 ≤ n` this is `⌊(2n + d) / 2d⌋`, otherwise `-⌊(d - 2n) / 2d⌋`
(floor division `Int.fdiv`). -/
def Frac.roundHalfAway (q : Frac) : ℤ :=
  if 0 ≤ q.num then Int.fdiv (2 * q.num + (q.den : ℤ)) (2 * (q.den : ℤ))
  else -(Int.fdiv ((q.den : ℤ) - 2 * q.num) (2 * (q.den : ℤ)))

/-- Association-list model of the `std::map` assignment `m[k] = v`: replace
the value at `k` where present, otherwise append a new entry. -/
def mapUpsert {α : Type} : List (String × α) → String → α → List (String × α)
  | [], k, v => [(k, v)]
  | (k', v') :: rest, k, v =>
      if k' = k then (k, v) :: rest else (k', v') :: mapUpsert rest k v

/-- Association-list lookup (`std::map::find`). -/
def mapLookup {α : Type} : List (String × α) → String → Option α
  | [], _ => none
  | (k', v') :: rest, k => if k' = k then some v' else mapLookup rest k

/-- `std::map<std::string,float>::operator[]` read access: default-insert
`0.0` when the key is absent, and return the stored value together with the
(possibly extended) map. -/
def mapGetIns (m : List (String × Frac)) (k : String) : Frac × List (String × Frac) :=
  match mapLookup m k with
  | some v => (v, m)
  | none => (0, m ++ [(k, 0)])

/-- Split at the first occurrence of `delim` (C++ `std::string::find`
followed by two `substr` calls): `some (before, after)`, or `none` when the
delimiter does not occur. -/
def splitAtFirst (delim : Char) : List Char → Option (List Char × List Char)
  | [] => none
  | c :: cs =>
      if c = delim then some ([], cs)
      else (splitAtFirst delim cs).map (fun p => (c :: p.1, p.2))

/-- One `std::getline(stream, token, delim)` on the remaining characters:
the token read (up to, not including, the delimiter) and the rest of the
stream with the delimiter consumed. -/
def readUpToConsume (delim : Char) : List Char → List Char × List Char
  | [] => ([], [])
  | c :: cs =>
      if c = delim then ([], cs)
      else
        let p := readUpToConsume delim cs
        (c :: p.1, p.2)

/-- The `while (std::getline(iss, token, delim))` tokenizer: `std::getline`
fails exactly when the stream is already exhausted, so the loop yields one
token per delimiter-terminated or final segment and produces nothing from an
empty stream.  Fuel bounds the recursion; `getlineTokens` supplies enough. -/
def getlineTokensAux (delim : Char) : ℕ → List Char → List String
  | 0, _ => []
  | _ + 1, [] => []
  | fuel + 1, c :: cs =>
      let p := readUpToConsume delim (c :: cs)
      String.mk p.1 :: getlineTokensAux delim fuel p.2

/-- All tokens `std::getline(iss, token, delim)` yields from `s`. -/
def getlineTokens (delim : Char) (s : String) : List String :=
  getlineTokensAux delim (s.data.length + 1) s.data

/-- Accumulate a run of decimal digits: value so far, number of digits read,
rest of the input. -/
def parseDigits : List Char → ℕ → ℕ → ℕ × ℕ × List Char
  | [], acc, n => (acc, n, [])
  | c :: cs, acc, n =>
      if c.isDigit then parseDigits cs (acc * 10 + (c.toNat - 48)) (n + 1)
      else (acc, n, c :: cs)

/-- Model of `std::stof` on plain decimal notation: skip leading whitespace,
optional sign, digits with an optional fractional part.  `none` models the
`std::invalid_argument` exception thrown when no digit can be consumed;
characters after the parsed prefix are ignored, as in `strtof`. -/
def stofM (s : String) : Option Frac :=
  let l := s.data.dropWhile (fun c => c.isWhitespace)
  let signAndRest : ℤ × List Char :=
    match l with
    | '-' :: r => (-1, r)
    | '+' :: r => (1, r)
    | _ => (1, l)
  let ipart := parseDigits signAndRest.2 0 0
  let fpart : ℕ × ℕ × List Char :=
    match ipart.2.2 with
    | '.' :: r => parseDigits r 0 0
    | _ => (0, 0, ipart.2.2)
  if ipart.2.1 + fpart.2.1 = 0 then none
  else
    some ⟨signAndRest.1 * ((ipart.1 : ℤ) * (10 : ℤ) ^ fpart.2.1 + (fpart.1 : ℤ)),
      (10 : ℕ+) ^ fpart.2.1⟩

/-- Model of `std::stoi` (base 10): skip leading whitespace, optional sign,
at least one decimal digit, further characters ignored.  `none` models the
`std::invalid_argument` exception. -/
def stoiM (s : String) : Option ℤ :=
  let l := s.data.dropWhile (fun c => c.isWhitespace)
  let signAndRest : ℤ × List Char :=
    match l with
    | '-' :: r => (-1, r)
    | '+' :: r => (1, r)
    | _ => (1, l)
  let ipart := parseDigits signAndRest.2 0 0
  if ipart.2.1 = 0 then none else some (signAndRest.1 * (ipart.1 : ℤ))

/-- Left-pad a digit string with zeros to width `w`. -/
def padZeros (s : String) (w : ℕ) : String :=
  String.mk (List.replicate (w - s.length) '0') ++ s

/-- `std::ostream << std::fixed << std::setprecision prec << value`:
locale-independent fixed-point decimal rendering with `prec` digits after
the point (no point at all when `prec = 0`, as for `printf "%.0f"`):
round `value * 10 ^ prec` to the nearest integer and typeset it with the
decimal point `prec` digits from the right. -/
def fixedFormat (q : Frac) (prec : ℕ) : String :=
  let n := Frac.roundHalfAway ⟨q.num * (10 : ℤ) ^ prec, q.den⟩
  let mag := n.natAbs
  let ip := mag / 10 ^ prec
  let fp := mag % 10 ^ prec
  (if n < 0 then "-" else "") ++ toString ip ++
    (if prec = 0 then "" else "." ++ padZeros (toString fp) prec)

/-- `FloatToString` (FSFFB-XPP.cpp:258): apply the conversion factor, then
render in fixed-point notation at the given precision. -/
def FloatToString (value : Frac) (precision : ℕ) (conversionFactor : Frac := 1) : String :=
  fixedFormat (value * conversionFactor) precision

/-- The character set `find_last_not_of("~0.000")` actually searches with:
the distinct characters of the C++ literal. -/
def trimSet : List Char := ['~', '0', '.']

/-- `FloatArrayToString` (FSFFB-XPP.cpp:268): `data` is the backing array of
the dataref (the size query returns its length, and reads past its end
leave the zero-initialised buffer untouched — the list is read as given).
When `0 < fixed_size ≤ size` only that many elements are kept and the
string is returned whole; otherwise the result is cut at the last character
outside the set `{'~','0','.'}` (`find_last_not_of("~0.000")`), the whole
string surviving when every character is in the set (`npos`). -/
def FloatArrayToString (data : List Frac) (conversionFactor : Frac := 1)
    (fixed_size : ℤ := -1) (precision : ℕ := 3) : String :=
  let size : ℤ := data.length
  let size' : ℤ := if 0 < fixed_size ∧ fixed_size ≤ size then fixed_size else size
  let vals := (data.take size'.toNat).map (fun v => v * conversionFactor)
  let s := String.intercalate "~" (vals.map (fun v => fixedFormat v precision))
  if 0 < fixed_size then s
  else
    let dropped := s.data.reverse.dropWhile (fun c => trimSet.contains c)
    if dropped = [] then s else String.mk dropped.reverse

/-- The conversion constant 0.51444 of FSFFB-XPP.cpp:179 (knots to m/s),
as an exact decimal. -/
def kt_2_mps : Frac := ⟨51444, 100000⟩

/-- rad/sec to rev/min, 9.5493 (FSFFB-XPP.cpp:180). -/
def radps_2_rpm : Frac := ⟨95493, 10000⟩

/-- feet per second squared to g, 0.031081 (FSFFB-XPP.cpp:181). -/
def fps_2_g : Frac := ⟨31081, 1000000⟩

/-- dummy value for no conversion factor (FSFFB-XPP.cpp:182). -/
def no_convert : Frac := 1

/-- `DataRefSubscription` (FSFFB-XPP.cpp:58): one entry of the vector
`subscribedDataRefs`.  The resolved handle is represented by the path
string `XPLMFindDataRef` resolved. -/
structure DataRefSubscription where
  dataRef : String
  key : String
  type : String
  precision : ℤ
  conversionFactor : Frac
deriving Repr, DecidableEq

/-- A logged `XPLMSetDatai` / `XPLMSetDataf` call. -/
inductive SimWrite where
  | seti (ref : String) (v : ℤ)
  | setf (ref : String) (v : Frac)
deriving Repr, DecidableEq

/-- The dataref a write targets. -/
def SimWrite.ref : SimWrite → String
  | .seti r _ => r
  | .setf r _ => r

/-- Pure oracle for the X-Plane data-access layer during one step: dataref
resolution and the value every read returns.  Handles are path strings. -/
structure Env where
  findDataRef : String → Option String
  geti : String → ℤ
  getf : String → Frac
  getd : String → Frac
  getvf : String → List Frac
  aircraftDescr : String
  nthAircraftModel : String
  elapsedTime : Frac

/-- The mutable globals of the plugin that the two execution contexts
share or the frame loop carries across ticks (FSFFB-XPP.cpp:74-172). -/
structure PluginState where
  axisDataMap : List (String × Frac)
  overrideJoystick : Bool
  overridePedals : Bool
  overrideCollective : Bool
  subscribedDataRefs : List DataRefSubscription
  telemetryData : List (String × String)
  gPrevAircraftName : String
  gActiveNumGear : ℕ
  gActiveNumEngines : ℤ
  simPaused : Bool
deriving Repr

/-- Program start: `axisDataMap` holds the four canonical axes at `0.0`,
no overrides, no subscriptions, the previous-aircraft buffer zeroed,
`gActiveNumGear = 3` (FSFFB-XPP.cpp:77) and the remaining statics
zero-initialised. -/
def initState : PluginState :=
  { axisDataMap := [("jx", 0), ("jy", 0), ("px", 0), ("cy", 0)]
    overrideJoystick := false
    overridePedals := false
    overrideCollective := false
    subscribedDataRefs := []
    telemetryData := []
    gPrevAircraftName := ""
    gActiveNumGear := 3
    gActiveNumEngines := 0
    simPaused := false }

/-- Handle of `sim/time/paused`. -/
def gPaused : String := "sim/time/paused"

/-- Handle of `sim/flightmodel/failures/onground_all`. -/
def gOnGround : String := "sim/flightmodel/failures/onground_all"

/-- Handle of `sim/aircraft/gear/acf_gear_retract`. -/
def gRetractable : String := "sim/aircraft/gear/acf_gear_retract"

/-- Handle of `sim/cockpit2/controls/flap_system_deploy_ratio`. -/
def gFlaps : String := "sim/cockpit2/controls/flap_system_deploy_ratio"

/-- Handle of `sim/flightmodel2/gear/deploy_ratio`. -/
def gGear : String := "sim/flightmodel2/gear/deploy_ratio"

/-- Handle of `sim/flightmodel/forces/g_axil`. -/
def gGs_axil : String := "sim/flightmodel/forces/g_axil"

/-- Handle of `sim/flightmodel/forces/g_nrml`. -/
def gGs_nrml : String := "sim/flightmodel/forces/g_nrml"

/-- Handle of `sim/flightmodel/forces/g_side`. -/
def gGs_side : String := "sim/flightmodel/forces/g_side"

/-- Handle of `sim/flightmodel/position/local_ax`. -/
def gAccLocal_x : String := "sim/flightmodel/position/local_ax"

/-- Handle of `sim/flightmodel/position/local_ay`. -/
def gAccLocal_y : String := "sim/flightmodel/position/local_ay"

/-- Handle of `sim/flightmodel/position/local_az`. -/
def gAccLocal_z : String := "sim/flightmodel/position/local_az"

/-- Handle of `sim/flightmodel/forces/vx_acf_axis`. -/
def gVelAcf_x : String := "sim/flightmodel/forces/vx_acf_axis"

/-- Handle of `sim/flightmodel/forces/vy_acf_axis`. -/
def gVelAcf_y : String := "sim/flightmodel/forces/vy_acf_axis"

/-- Handle of `sim/flightmodel/forces/vz_acf_axis`. -/
def gVelAcf_z : String := "sim/flightmodel/forces/vz_acf_axis"

/-- Handle of `sim/flightmodel/position/true_airspeed`. -/
def gTAS : String := "sim/flightmodel/position/true_airspeed"

/-- Handle of `sim/flightmodel/position/indicated_airspeed`. -/
def gIAS : String := "sim/flightmodel/position/indicated_airspeed"

/-- Handle of `sim/weather/rho`. -/
def gAirDensity : String := "sim/weather/rho"

/-- Handle of `sim/flightmodel/misc/Qstatic`. -/
def gDynPress : String := "sim/flightmodel/misc/Qstatic"

/-- Handle of `sim/flightmodel/engine/POINT_thrust`. -/
def gPropThrust : String := "sim/flightmodel/engine/POINT_thrust"

/-- Handle of `sim/flightmodel/position/alpha`. -/
def gAoA : String := "sim/flightmodel/position/alpha"

/-- Handle of `sim/aircraft/overflow/acf_stall_warn_alpha`. -/
def gWarnAlpha : String := "sim/aircraft/overflow/acf_stall_warn_alpha"

/-- Handle of `sim/flightmodel/position/beta`. -/
def gSlip : String := "sim/flightmodel/position/beta"

/-- Handle of `sim/flightmodel2/gear/tire_vertical_deflection_mtr`. -/
def gWoW : String := "sim/flightmodel2/gear/tire_vertical_deflection_mtr"

/-- Handle of `sim/aircraft/engine/acf_num_engines`. -/
def gNumEngines : String := "sim/aircraft/engine/acf_num_engines"

/-- Handle of `sim/flightmodel/engine/ENGN_tacrad`. -/
def gEngRPM : String := "sim/flightmodel/engine/ENGN_tacrad"

/-- Handle of `sim/flightmodel/engine/ENGN_N1_`. -/
def gEngPCT : String := "sim/flightmodel/engine/ENGN_N1_"

/-- Handle of `sim/flightmodel2/engines/afterburner_ratio`. -/
def gAfterburner : String := "sim/flightmodel2/engines/afterburner_ratio"

/-- Handle of `sim/flightmodel/engine/POINT_tacrad`. -/
def gPropRPM : String := "sim/flightmodel/engine/POINT_tacrad"

/-- Handle of `sim/flightmodel/controls/ldruddef`. -/
def gRudDefl_l : String := "sim/flightmodel/controls/ldruddef"

/-- Handle of `sim/flightmodel/controls/rdruddef`. -/
def gRudDefl_r : String := "sim/flightmodel/controls/rdruddef"

/-- Handle of `sim/aircraft/view/acf_Vne`. -/
def gVne : String := "sim/aircraft/view/acf_Vne"

/-- Handle of `sim/aircraft/view/acf_Vso`. -/
def gVso : String := "sim/aircraft/view/acf_Vso"

/-- Handle of `sim/aircraft/view/acf_Vfe`. -/
def gVfe : String := "sim/aircraft/view/acf_Vfe"

/-- Handle of `sim/aircraft/overflow/acf_Vle`. -/
def gVle : String := "sim/aircraft/overflow/acf_Vle"

/-- Handle of `sim/operation/override/override_prop_pitch`. -/
def gCollectiveOvd : String := "sim/operation/override/override_prop_pitch"

/-- Handle of `sim/operation/override/override_joystick_roll`. -/
def gRollOvd : String := "sim/operation/override/override_joystick_roll"

/-- Handle of `sim/operation/override/override_joystick_pitch`. -/
def gPitchOvd : String := "sim/operation/override/override_joystick_pitch"

/-- Handle of `sim/operation/override/override_joystick_heading`. -/
def gYawOvd : String := "sim/operation/override/override_joystick_heading"

/-- Handle of `sim/cockpit2/engine/actuators/prop_ratio_all`. -/
def gCollectiveRatio : String := "sim/cockpit2/engine/actuators/prop_ratio_all"

/-- Handle of `sim/joystick/yoke_roll_ratio`. -/
def gRollRatio : String := "sim/joystick/yoke_roll_ratio"

/-- Handle of `sim/joystick/yoke_pitch_ratio`. -/
def gPitchRatio : String := "sim/joystick/yoke_pitch_ratio"

/-- Handle of `sim/joystick/yoke_heading_ratio`. -/
def gYawRatio : String := "sim/joystick/yoke_heading_ratio"

/-- Handle of `sim/flightmodel2/controls/elevator_trim`. -/
def gElevTrim : String := "sim/flightmodel2/controls/elevator_trim"

/-- Handle of `sim/flightmodel2/controls/aileron_trim`. -/
def gAilerTrim : String := "sim/flightmodel2/controls/aileron_trim"

/-- Handle of `sim/flightmodel2/controls/rudder_trim`. -/
def gRudderTrim : String := "sim/flightmodel2/controls/rudder_trim"

/-- Handle of `sim/cockpit/autopilot/autopilot_mode`. -/
def gAPMode : String := "sim/cockpit/autopilot/autopilot_mode"

/-- Handle of `sim/cockpit2/autopilot/servos_on`. -/
def gAPServos : String := "sim/cockpit2/autopilot/servos_on"

/-- Handle of `sim/joystick/servo_heading_ratio`. -/
def gYawServo : String := "sim/joystick/servo_heading_ratio"

/-- Handle of `sim/joystick/servo_pitch_ratio`. -/
def gPitchServo : String := "sim/joystick/servo_pitch_ratio"

/-- Handle of `sim/joystick/servo_roll_ratio`. -/
def gRollServo : String := "sim/joystick/servo_roll_ratio"

/-- Handle of `sim/flightmodel/controls/canopy_ratio`. -/
def gCanopyPos : String := "sim/flightmodel/controls/canopy_ratio"

/-- Handle of `sim/flightmodel2/controls/speedbrake_ratio`. -/
def gSpeedbrakePos : String := "sim/flightmodel2/controls/speedbrake_ratio"

/-- Handle of `sim/aircraft/parts/acf_gear_xnodef`. -/
def gGearXNode : String := "sim/aircraft/parts/acf_gear_xnodef"

/-- Handle of `sim/aircraft/parts/acf_gear_ynodef`. -/
def gGearYNode : String := "sim/aircraft/parts/acf_gear_ynodef"

/-- Handle of `sim/aircraft/parts/acf_gear_znodef`. -/
def gGearZNode : String := "sim/aircraft/parts/acf_gear_znodef"

/-- Handle of `sim/flightmodel/misc/act_frc_ptch_lb`. -/
def gStickForcePitch : String := "sim/flightmodel/misc/act_frc_ptch_lb"

/-- Handle of `sim/flightmodel/misc/act_frc_roll_lb`. -/
def gStickForceRoll : String := "sim/flightmodel/misc/act_frc_roll_lb"

/-- Handle of `sim/flightmodel/misc/act_frc_hdgn_lb`. -/
def gStickForceYaw : String := "sim/flightmodel/misc/act_frc_hdgn_lb"

/-- How many of the three gear-coordinate arrays are non-zero at index `i`
(the `nonZeroCount` of one iteration of the loop in `GetNumGear`,
FSFFB-XPP.cpp:335-341; each `count_if` ranges over the single element
`begin()+i … begin()+i+1`). -/
def axisNonZeroCount (x y z : List Frac) (i : ℕ) : ℕ :=
  (if x.getD i 0 ≠ 0 then 1 else 0) +
    (if y.getD i 0 ≠ 0 then 1 else 0) +
    (if z.getD i 0 ≠ 0 then 1 else 0)

/-- Core of `GetNumGear` (FSFFB-XPP.cpp:321): the three node arrays are
read into zero-initialised buffers of size 10 (`List.getD _ _ 0` models the
zero fill past the dataref's end), and `maxNonZero` is the running maximum
of `nonZeroCount` over the ten indices. -/
def GetNumGearArrays (x y z : List Frac) : ℕ :=
  (List.range 10).foldl (fun acc i => max acc (axisNonZeroCount x y z i)) 0

/-- `GetNumGear` as the plugin calls it: on the arrays the three gear-node
datarefs hold. -/
def GetNumGear (env : Env) : ℕ :=
  GetNumGearArrays (env.getvf gGearXNode) (env.getvf gGearYNode) (env.getvf gGearZNode)

/-- The gear count as §4.2 of the specification words it: the highest index,
in the fixed-capacity (size 10) coordinate table, at which any of the three
axis arrays holds a non-zero value.  Stated from the specification's words,
for comparison with `GetNumGearArrays`. -/
def specGearCount (x y z : List Frac) : ℕ :=
  ((List.range 10).filter (fun i => decide (axisNonZeroCount x y z i ≠ 0))).foldr max 0

/-- `RegisterDataRef` (FSFFB-XPP.cpp:226): resolve the path through
`XPLMFindDataRef`; on success push a subscription onto the vector, on
failure only log.  Default `precision = 3`, `conversionFactor = 1.0`. -/
def RegisterDataRef (env : Env) (st : PluginState) (datarefPath key type : String)
    (precision : ℤ := 3) (conversionFactor : Frac := 1) : PluginState :=
  match env.findDataRef datarefPath with
  | some h =>
      { st with subscribedDataRefs :=
          st.subscribedDataRefs ++ [⟨h, key, type, precision, conversionFactor⟩] }
  | none => st

/-- One iteration of the registry loop of `CollectTelemetryData`
(FSFFB-XPP.cpp:387-403): dispatch on the subscription's type string;
unsupported types only log. -/
def registryStep (env : Env) (m : List (String × String)) (sub : DataRefSubscription) :
    List (String × String) :=
  if sub.type = "int" then
    mapUpsert m sub.key (toString (env.geti sub.dataRef))
  else if sub.type = "float" then
    mapUpsert m sub.key (FloatToString (env.getf sub.dataRef * sub.conversionFactor) sub.precision.toNat)
  else if sub.type = "double" then
    mapUpsert m sub.key (FloatToString (env.getd sub.dataRef * sub.conversionFactor) sub.precision.toNat)
  else m

/-- The per-aircraft assignments of `GetACDetails` (FSFFB-XPP.cpp:346), in
source order, given the freshly computed engine and gear counts. -/
def GetACDetailsPairs (env : Env) (numEngines : ℤ) (numGear : ℕ) : List (String × String) :=
  [("RetractableGear", toString (env.geti gRetractable)),
   ("NumberEngines", toString numEngines),
   ("NumberGear", toString (numGear : ℤ)),
   ("WarnAlpha", FloatToString (env.getf gWarnAlpha) 3),
   ("Vne", FloatToString (env.getf gVne * kt_2_mps) 3),
   ("Vso", FloatToString (env.getf gVso * kt_2_mps) 3),
   ("Vfe", FloatToString (env.getf gVfe * kt_2_mps) 3),
   ("Vle", FloatToString (env.getf gVle * kt_2_mps) 3),
   ("GearXNode", FloatArrayToString (env.getvf gGearXNode) no_convert numGear),
   ("GearYNode", FloatArrayToString (env.getvf gGearYNode) no_convert numGear),
   ("GearZNode", FloatArrayToString (env.getvf gGearZNode) no_convert numGear)]

/-- The unconditional per-frame assignments of `CollectTelemetryData`
(FSFFB-XPP.cpp:405-466), in source order.  `name` is the aircraft name in
`gAircraftName`, `numEngines` the cached `gActiveNumEngines`, and the three
booleans the override flags read for `cOvrd`/`jOvrd`/`pOvrd`. -/
def builtinPairs (env : Env) (name : String) (numEngines : ℤ)
    (oC oJ oP : Bool) : List (String × String) :=
  [("src", "XPLANE"),
   ("N", name),
   ("STOP", toString (env.geti gPaused)),
   ("SimPaused", if env.geti gPaused = 1 then "1" else "0"),
   ("SimOnGround", toString (env.geti gOnGround)),
   ("T", FloatToString env.elapsedTime 3),
   ("G", FloatToString (env.getf gGs_nrml) 3),
   ("Gaxil", FloatToString (env.getf gGs_axil) 3),
   ("Gside", FloatToString (env.getf gGs_side) 3),
   ("TAS", FloatToString (env.getf gTAS) 3),
   ("IAS", FloatToString (env.getf gIAS * kt_2_mps) 3),
   ("AirDensity", FloatToString (env.getf gAirDensity) 3),
   ("DynPressure", FloatToString (env.getf gDynPress) 3),
   ("AoA", FloatToString (env.getf gAoA) 3),
   ("SideSlip", FloatToString (env.getf gSlip) 3),
   ("WeightOnWheels", FloatArrayToString (env.getvf gWoW) no_convert 3),
   ("EngRPM", FloatArrayToString (env.getvf gEngRPM) radps_2_rpm numEngines 2),
   ("EngPCT", FloatArrayToString (env.getvf gEngPCT) no_convert numEngines 3),
   ("PropRPM", FloatArrayToString (env.getvf gPropRPM) radps_2_rpm numEngines 2),
   ("PropThrust", FloatArrayToString (env.getvf gPropThrust) no_convert numEngines 2),
   ("Afterburner", FloatArrayToString (env.getvf gAfterburner) no_convert numEngines 2),
   ("RudderDefl", FloatToString (env.getf gRudDefl_l) 3),
   ("RudderDefl_l", FloatToString (env.getf gRudDefl_l) 3),
   ("RudderDefl_r", FloatToString (env.getf gRudDefl_r) 3),
   ("StickForcePitch", FloatToString (env.getf gStickForcePitch) 3),
   ("StickForceRoll", FloatToString (env.getf gStickForceRoll) 3),
   ("StickForceYaw", FloatToString (env.getf gStickForceYaw) 3),
   ("AccBody", FloatToString (env.getf gAccLocal_x * fps_2_g) 3 ++ "~" ++
      FloatToString (env.getf gAccLocal_y * fps_2_g) 3 ++ "~" ++
      FloatToString (env.getf gAccLocal_z * fps_2_g) 3),
   ("VelAcf", FloatToString (env.getf gVelAcf_x) 3 ++ "~" ++
      FloatToString (env.getf gVelAcf_y) 3 ++ "~" ++
      FloatToString (-(env.getf gVelAcf_z)) 3),
   ("Flaps", FloatToString (env.getf gFlaps) 3),
   ("Gear", FloatArrayToString (env.getvf gGear) no_convert 3),
   ("APMode", toString (env.geti gAPMode)),
   ("APServos", toString (env.geti gAPServos)),
   ("APYawServo", FloatToString (env.getf gYawServo) 3),
   ("APPitchServo", FloatToString (env.getf gPitchServo) 3),
   ("APRollServo", FloatToString (env.getf gRollServo) 3),
   ("ElevTrimPct", FloatToString (env.getf gElevTrim) 3),
   ("AileronTrimPct", FloatToString (env.getf gAilerTrim) 3),
   ("RudderTrimPct", FloatToString (env.getf gRudderTrim) 3),
   ("CanopyPos", FloatToString (env.getf gCanopyPos) 3),
   ("SpeedbrakePos", FloatToString (env.getf gSpeedbrakePos) 3),
   ("cOvrd", if oC then "1" else "0"),
   ("jOvrd", if oJ then "1" else "0"),
   ("pOvrd", if oP then "1" else "0")]

/-- Write a list of key/value pairs into the telemetry map, in order. -/
def writePairs (m : List (String × String)) (ps : List (String × String)) :
    List (String × String) :=
  ps.foldl (fun acc kv => mapUpsert acc kv.1 kv.2) m

/-- The opening of `CollectTelemetryData` (FSFFB-XPP.cpp:372-385): read the
aircraft name (falling back to the model file name when the description is
blank) and, when it differs from the cached previous name, run
`GetACDetails` — updating the cached engine and gear counts and the
per-aircraft telemetry fields — and overwrite the cache. -/
def collectACStage (env : Env) (st : PluginState) : PluginState :=
  let name := if env.aircraftDescr = "" then env.nthAircraftModel else env.aircraftDescr
  if name ≠ st.gPrevAircraftName then
    let ne := env.geti gNumEngines
    let ng := GetNumGear env
    { st with
        gActiveNumEngines := ne
        gActiveNumGear := ng
        telemetryData := writePairs st.telemetryData (GetACDetailsPairs env ne ng)
        gPrevAircraftName := name }
  else st

/-- The telemetry map after a full `CollectTelemetryData` pass: starting
from the aircraft-change stage's map, format every subscription, then write
the built-in per-frame fields.  After `collectACStage` the cached
previous-aircraft name equals the name read this frame (it was just
overwritten when it differed), so the `N` field reads it from the state. -/
def collectedMap (env : Env) (st : PluginState) : List (String × String) :=
  writePairs
    ((collectACStage env st).subscribedDataRefs.foldl (registryStep env)
      (collectACStage env st).telemetryData)
    (builtinPairs env (collectACStage env st).gPrevAircraftName
      (collectACStage env st).gActiveNumEngines
      st.overrideCollective st.overrideJoystick st.overridePedals)

/-- `CollectTelemetryData` (FSFFB-XPP.cpp:369): the aircraft-change stage,
the registry loop and the built-in fields, with `simPaused` refreshed from
the paused dataref on the way. -/
def CollectTelemetryData (env : Env) (st : PluginState) : PluginState :=
  { collectACStage env st with
      telemetryData := collectedMap env st
      simPaused := env.geti gPaused = 1 }

/-- `FormatAndSendTelemetryData` (FSFFB-XPP.cpp:474): concatenate
`key=value;` over the snapshot's entries into one datagram. -/
def encodeSnapshot (m : List (String × String)) : String :=
  m.foldl (fun acc kv => acc ++ kv.1 ++ "=" ++ kv.2 ++ ";") ""

/-- The `AXIS` loop of `ProcessReceivedData` (FSFFB-XPP.cpp:489-504): for
each comma token holding `=`, `std::stof` the part after the first `=` and
assign it into `axisDataMap`; tokens without `=` are skipped.  A `stof`
failure is a thrown exception: the whole message processing aborts
(`none`). -/
def processAxisTokens (m : List (String × Frac)) : List String → Option (List (String × Frac))
  | [] => some m
  | t :: rest =>
      match splitAtFirst '=' t.data with
      | none => processAxisTokens m rest
      | some p =>
          match stofM (String.mk p.2) with
          | none => none
          | some v => processAxisTokens (mapUpsert m (String.mk p.1) v) rest

/-- The `SUBSCRIBE` payload parser (FSFFB-XPP.cpp:550-553): alternate
`getline(key, '=')` / `getline(value, ',')` into a parameter map; a failed
value read leaves the empty string.  Fuel bounds the loop;
`parseSubscribeParams` supplies enough. -/
def parseSubscribeParamsAux : ℕ → List Char → List (String × String) → List (String × String)
  | 0, _, acc => acc
  | _, [], acc => acc
  | fuel + 1, s, acc =>
      let kp := readUpToConsume '=' s
      let vp := readUpToConsume ',' kp.2
      parseSubscribeParamsAux fuel vp.2 (mapUpsert acc (String.mk kp.1) (String.mk vp.1))

/-- The parameter map the `SUBSCRIBE` branch builds from its payload. -/
def parseSubscribeParams (payload : String) : List (String × String) :=
  parseSubscribeParamsAux (payload.data.length + 1) payload.data []

/-- `ProcessReceivedData` (FSFFB-XPP.cpp:487): dispatch on the data type.

* `AXIS`: update the axis map token by token (see `processAxisTokens`).
* `OVERRIDE`: `getline(keyValuePair, '=')` fails only on an empty payload;
  the keyword is the part before the first `=`, and `iss >> std::boolalpha`
  yields `true` exactly when, whitespace skipped, the rest starts with the
  word `true` (on no match the extraction stores `false`, and the branch
  carries on regardless of the stream state).  Known keywords write the
  corresponding override datarefs and flag; unknown keywords do nothing.
* `SUBSCRIBE`: parse the parameter map, read the mandatory fields with
  `operator[]` (empty string when missing), parse optional `precision` /
  `conversion` — `std::stoi`/`std::stof` throwing on garbage (`none`) —
  and call `RegisterDataRef` unconditionally.
* anything else: log only.

`none` models an exception leaving the function. -/
def ProcessReceivedData (env : Env) (st : PluginState) (dataType payload : String) :
    Option (PluginState × List SimWrite) :=
  if dataType = "AXIS" then
    match processAxisTokens st.axisDataMap (getlineTokens ',' payload) with
    | none => none
    | some m => some ({ st with axisDataMap := m }, [])
  else if dataType = "OVERRIDE" then
    if payload = "" then some (st, [])
    else
      let kp : String × List Char :=
        match splitAtFirst '=' payload.data with
        | some p => (String.mk p.1, p.2)
        | none => (payload, [])
      let b := List.isPrefixOf "true".data (kp.2.dropWhile (fun c => c.isWhitespace))
      if kp.1 = "joystick" then
        some ({ st with overrideJoystick := b },
          [.seti gRollOvd (if b then 1 else 0), .seti gPitchOvd (if b then 1 else 0)])
      else if kp.1 = "pedals" then
        some ({ st with overridePedals := b }, [.seti gYawOvd (if b then 1 else 0)])
      else if kp.1 = "collective" then
        some ({ st with overrideCollective := b }, [.seti gCollectiveOvd (if b then 1 else 0)])
      else some (st, [])
  else if dataType = "SUBSCRIBE" then
    let params := parseSubscribeParams payload
    let datarefStr := (mapLookup params "dataref").getD ""
    let typeStr := (mapLookup params "type").getD ""
    let tagStr := (mapLookup params "tag").getD ""
    let precisionR : Option ℤ :=
      match mapLookup params "precision" with
      | some s => stoiM s
      | none => some 3
    let conversionR : Option Frac :=
      match mapLookup params "conversion" with
      | some s => stofM s
      | none => some 1
    match precisionR, conversionR with
    | some p, some c => some (RegisterDataRef env st datarefStr tagStr typeStr p c, [])
    | _, _ => none
  else some (st, [])

/-- The datagram split of `ReceiveData` (FSFFB-XPP.cpp:586-590):
`getline(dataType, ':')` then `getline(payload)` — the part before the
first `:` and everything after it (empty when there is no `:`). -/
def splitDatagram (s : String) : String × String :=
  match splitAtFirst ':' s.data with
  | some p => (String.mk p.1, String.mk p.2)
  | none => (s, "")

/-- One received datagram, as `ReceiveData` hands it to
`ProcessReceivedData` under the axis-data mutex. -/
def processDatagram (env : Env) (st : PluginState) (s : String) :
    Option (PluginState × List SimWrite) :=
  ProcessReceivedData env st (splitDatagram s).1 (splitDatagram s).2

/-- `SendAxisPosition` (FSFFB-XPP.cpp:610): for each overridden group read
the corresponding axis values with `operator[]` (which default-inserts) and
write them through to the simulator's writable channels. -/
def SendAxisPosition (st : PluginState) : PluginState × List SimWrite :=
  let s₁ :=
    if st.overrideJoystick then
      let jx := mapGetIns st.axisDataMap "jx"
      let jy := mapGetIns jx.2 "jy"
      (jy.2, [SimWrite.setf gRollRatio jx.1, SimWrite.setf gPitchRatio jy.1])
    else (st.axisDataMap, [])
  let s₂ :=
    if st.overridePedals then
      let px := mapGetIns s₁.1 "px"
      (px.2, [SimWrite.setf gYawRatio px.1])
    else (s₁.1, [])
  let s₃ :=
    if st.overrideCollective then
      let cy := mapGetIns s₂.1 "cy"
      (cy.2, [SimWrite.setf gCollectiveRatio cy.1])
    else (s₂.1, [])
  ({ st with axisDataMap := s₃.1 }, s₁.2 ++ s₂.2 ++ s₃.2)

/-- What one frame tick produces: the new state, the simulator writes of
the axis write-through, and the outbound datagrams handed to `sendto`. -/
structure TickResult where
  state : PluginState
  writes : List SimWrite
  sent : List String
deriving Repr

/-- `MyFlightLoopCallback` (FSFFB-XPP.cpp:753): axis write-through, then
`CollectTelemetryData`, then — only when the simulator is not paused —
exactly one `sendto` of the encoded snapshot. -/
def tick (env : Env) (st : PluginState) : TickResult :=
  let sa := SendAxisPosition st
  let st₂ := CollectTelemetryData env sa.1
  { state := st₂
    writes := sa.2
    sent := if st₂.simPaused then [] else [encodeSnapshot st₂.telemetryData] }

/-- A concrete oracle used by the closed evaluations below: the simulator
reports itself paused, every dataref resolves to nothing, every read is
zero or empty, and the loaded aircraft is called `PLANE`. -/
def env0 : Env :=
  { findDataRef := fun _ => none
    geti := fun r => if r = gPaused then 1 else 0
    getf := fun _ => 0
    getd := fun _ => 0
    getvf := fun _ => []
    aircraftDescr := "PLANE"
    nthAircraftModel := "PLANE"
    elapsedTime := 0 }

/-- A concrete oracle under which the dataref path `sim/x` (and only it)
resolves, and the simulator is not paused. -/
def envResolve : Env :=
  { env0 with
      findDataRef := fun p => if p = "sim/x" then some p else none
      geti := fun _ => 0 }

/-- A state whose registry holds one subscription of the unsupported type
`string` under the key `Foo` — reachable from `initState` by the datagram
`SUBSCRIBE:dataref=sim/x,type=string,tag=Foo` under `envResolve` modulo the
recorded handle. -/
def stC8 : PluginState :=
  { initState with subscribedDataRefs := [⟨"sim/x", "Foo", "string", 3, 1⟩] }

/-- The keys `CollectTelemetryData` writes unconditionally on every frame
(the keys of `builtinPairs`, in order). -/
def builtinKeyList : List String :=
  ["src", "N", "STOP", "SimPaused", "SimOnGround", "T", "G", "Gaxil", "Gside",
   "TAS", "IAS", "AirDensity", "DynPressure", "AoA", "SideSlip",
   "WeightOnWheels", "EngRPM", "EngPCT", "PropRPM", "PropThrust",
   "Afterburner", "RudderDefl", "RudderDefl_l", "RudderDefl_r",
   "StickForcePitch", "StickForceRoll", "StickForceYaw", "AccBody", "VelAcf",
   "Flaps", "Gear", "APMode", "APServos", "APYawServo", "APPitchServo",
   "APRollServo", "ElevTrimPct", "AileronTrimPct", "RudderTrimPct",
   "CanopyPos", "SpeedbrakePos", "cOvrd", "jOvrd", "pOvrd"]

/-- The four axis keys `axisDataMap` is initialised with and
`SendAxisPosition` reads. -/
def canonicalAxisKeys : List String := ["jx", "jy", "px", "cy"]

/-- A state with one registered `float` subscription, used to instantiate
the registry theorems at a concrete input. -/
def stFloatSub : PluginState :=
  { initState with subscribedDataRefs := [⟨"h", "Bar", "float", 3, 1⟩] }

theorem str_append_assoc (s t u : String) : s ++ t ++ u = s ++ (t ++ u) :=
  congrArg String.mk (List.append_assoc s.data t.data u.data)

theorem str_append_empty (s : String) : s ++ "" = s :=
  congrArg String.mk (List.append_nil s.data)

theorem mapLookup_upsert_self {α : Type} (m : List (String × α)) (k : String) (v : α) :
    mapLookup (mapUpsert m k v) k = some v := by
  induction m with
  | nil => simp [mapUpsert, mapLookup]
  | cons kv rest ih =>
      by_cases h : kv.1 = k
      · simp [mapUpsert, mapLookup, h]
      · simp [mapUpsert, mapLookup, h, ih]

theorem mapLookup_upsert_ne {α : Type} (m : List (String × α)) (k k' : String) (v : α)
    (h : k' ≠ k) : mapLookup (mapUpsert m k v) k' = mapLookup m k' := by
  have h' : ¬ k = k' := fun hh => h hh.symm
  induction m with
  | nil => simp [mapUpsert, mapLookup, h']
  | cons kv rest ih =>
      by_cases hk : kv.1 = k
      · simp [mapUpsert, mapLookup, hk, h']
      · simp [mapUpsert, mapLookup, hk, ih]

theorem mapLookup_upsert_isSome {α : Type} (m : List (String × α)) (k k' : String) (v : α)
    (h : (mapLookup m k').isSome) : (mapLookup (mapUpsert m k v) k').isSome := by
  by_cases hk : k' = k
  · subst hk; simp [mapLookup_upsert_self]
  · rwa [mapLookup_upsert_ne m k k' v hk]

theorem foldl_max_eq (f : ℕ → ℕ) (l : List ℕ) (a : ℕ) :
    l.foldl (fun acc i => max acc (f i)) a = max a ((l.map f).foldr max 0) := by
  induction l generalizing a with
  | nil => simp
  | cons hd t ih => simp [ih, Nat.max_assoc]

theorem foldr_max_le (l : List ℕ) (b : ℕ) (h : ∀ x ∈ l, x ≤ b) : l.foldr max 0 ≤ b := by
  induction l with
  | nil => simp
  | cons hd t ih =>
      simp only [List.foldr_cons]
      exact max_le (h hd (by simp)) (ih fun x hx => h x (by simp [hx]))

theorem axisNonZeroCount_le_three (x y z : List Frac) (i : ℕ) :
    axisNonZeroCount x y z i ≤ 3 := by
  unfold axisNonZeroCount
  split <;> split <;> split <;> omega

theorem encode_foldl_concat (m : List (String × String)) : ∀ a : String,
    m.foldl (fun acc kv => acc ++ kv.1 ++ "=" ++ kv.2 ++ ";") a =
      a ++ (m.map (fun kv => kv.1 ++ "=" ++ kv.2 ++ ";")).foldr (· ++ ·) "" := by
  induction m with
  | nil => intro a; simp [str_append_empty]
  | cons kv t ih =>
      intro a
      simp only [List.foldl_cons, List.map_cons, List.foldr_cons]
      rw [ih]
      simp [str_append_assoc]

theorem encodeSnapshot_eq_concat (m : List (String × String)) :
    encodeSnapshot m = (m.map (fun kv => kv.1 ++ "=" ++ kv.2 ++ ";")).foldr (· ++ ·) "" := by
  have h := encode_foldl_concat m ""
  simpa [encodeSnapshot] using h

/-- C1: the claim is the spec's never-crash rule for inbound decoding; the
code violates it.  An `AXIS` pair whose value part has no numeric prefix
(here the empty value of `jx=`) makes `std::stof` throw, and a `SUBSCRIBE`
payload with a malformed `precision` makes `std::stoi` throw; nothing on
the receive path catches, so the whole processing step aborts (`none`)
instead of skipping the pair or degrading to a no-op. -/
theorem c1_stof_stoi_crash :
    processDatagram env0 initState "AXIS:jx=" = none ∧
    processDatagram env0 initState "SUBSCRIBE:dataref=sim/x,type=float,tag=F,precision=bad" = none :=
  ⟨rfl, rfl⟩

/-- C2: with `fixed_size = 3` the claim's expected string is produced, but
without a fixed size the trimming of `[5,0,0]` yields `"5"`, not the
claimed `"5.000"`, because `find_last_not_of("~0.000")` strips every
trailing character of the set `{'~','0','.'}`; on `[10,0,0]` it even
truncates the value `10` to `"1"`. -/
theorem c2_trim_eval :
    FloatArrayToString [0, 0, 5] 1 3 3 = "0.000~0.000~5.000" ∧
    FloatArrayToString [5, 0, 0] 1 (-1) 3 = "5" ∧
    FloatArrayToString [10, 0, 0] 1 (-1) 3 = "1" ∧
    ("5" : String) ≠ "5.000" :=
  ⟨rfl, rfl, rfl, by decide⟩

/-- C3 counterexample: with a single non-zero coordinate at index 5 the
code's `GetNumGear` returns 1 (one non-zero axis at that index), while the
highest index holding any non-zero value — the claim's description — is 5. -/
theorem c3_counterexample :
    GetNumGearArrays [0, 0, 0, 0, 0, 1, 0, 0, 0, 0] [] [] = 1 ∧
    specGearCount [0, 0, 0, 0, 0, 1, 0, 0, 0, 0] [] [] = 5 ∧
    (1 : ℕ) ≠ 5 :=
  ⟨rfl, rfl, by decide⟩

/-- C3 amended: the gear count computed on aircraft change equals the
maximum, over the ten indices of the fixed-capacity gear coordinate table,
of the number of the three axis arrays (X, Y, Z) holding a non-zero value
at that index — in particular it never exceeds 3, so it is not the highest
non-zero index. -/
theorem c3_amended (x y z : List Frac) :
    GetNumGearArrays x y z = ((List.range 10).map (axisNonZeroCount x y z)).foldr max 0 ∧
    GetNumGearArrays x y z ≤ 3 := by
  have he : GetNumGearArrays x y z =
      ((List.range 10).map (axisNonZeroCount x y z)).foldr max 0 := by
    unfold GetNumGearArrays
    rw [foldl_max_eq]
    simp
  refine ⟨he, he ▸ foldr_max_le _ 3 ?_⟩
  intro v hv
  simp only [List.mem_map] at hv
  obtain ⟨i, _, rfl⟩ := hv
  exact axisNonZeroCount_le_three x y z i

/-- C4 counterexample: on a frame tick during which the paused dataref
reads 1 the flight-loop callback sends no datagram at all, refuting
"exactly one outbound telemetry datagram per frame tick" (`env0` reports
the simulator paused). -/
theorem c4_counterexample :
    (tick env0 initState).sent = [] ∧ (tick env0 initState).state.simPaused = true :=
  ⟨rfl, rfl⟩

/-- C4 amended: a frame tick sends exactly one datagram — the concatenation
of `key=value;` over every entry of that frame's snapshot — when the
simulator is not paused, and none when it is paused. -/
theorem c4_amended (env : Env) (st : PluginState) :
    (tick env st).sent =
      if (tick env st).state.simPaused then []
      else [((tick env st).state.telemetryData.map
              (fun kv => kv.1 ++ "=" ++ kv.2 ++ ";")).foldr (· ++ ·) ""] := by
  simp only [tick]
  rw [encodeSnapshot_eq_concat]

/-- C9: the colon-free datagram `GARBAGE` parses into data type `GARBAGE`
with empty payload, falls into the logging-only branch, and leaves every
piece of state unchanged with no simulator write and no exception — for
any starting state. -/
theorem c9_garbage_noop (env : Env) (st : PluginState) :
    processDatagram env st "GARBAGE" = some (st, []) := rfl

/-- C5 counterexample: under an oracle resolving `sim/x`, the SUBSCRIBE
payload `dataref=sim/x,type=float` — missing the mandatory `tag` — still
adds a registry entry (with the empty string as its key), refuting "no
registry entry is added". -/
theorem c5_counterexample :
    (processDatagram envResolve initState "SUBSCRIBE:dataref=sim/x,type=float").map
        (fun r => r.1.subscribedDataRefs) =
      some [⟨"sim/x", "", "float", 3, 1⟩] := rfl

/-- C5 amended: the SUBSCRIBE branch calls registration unconditionally
with the empty string substituted for each missing field.  A payload
missing `type` or `tag` whose `dataref` resolves therefore adds an entry
(empty string in the missing slot); only a payload whose (possibly missing,
hence empty) `dataref` path fails to resolve is a no-op. -/
theorem c5_amended (env : Env) (st : PluginState) (h : String)
    (h₁ : env.findDataRef "sim/x" = some h) (h₂ : env.findDataRef "" = none) :
    processDatagram env st "SUBSCRIBE:dataref=sim/x,type=float" =
      some ({ st with subscribedDataRefs :=
          st.subscribedDataRefs ++ [⟨h, "", "float", 3, 1⟩] }, []) ∧
    processDatagram env st "SUBSCRIBE:type=float,tag=Foo" = some (st, []) := by
  have e₁ : processDatagram env st "SUBSCRIBE:dataref=sim/x,type=float" =
      some (RegisterDataRef env st "sim/x" "" "float" 3 1, []) := rfl
  have e₂ : processDatagram env st "SUBSCRIBE:type=float,tag=Foo" =
      some (RegisterDataRef env st "" "Foo" "float" 3 1, []) := rfl
  rw [e₁, e₂]
  unfold RegisterDataRef
  rw [h₁, h₂]
  exact ⟨rfl, rfl⟩

/-- Witness for the amended C5 at the concrete oracle `envResolve` and the
initial state. -/
theorem c5_witness :
    (envResolve.findDataRef "sim/x" = some "sim/x" ∧ envResolve.findDataRef "" = none) ∧
    (processDatagram envResolve initState "SUBSCRIBE:dataref=sim/x,type=float" =
        some ({ initState with subscribedDataRefs := [⟨"sim/x", "", "float", 3, 1⟩] }, []) ∧
      processDatagram envResolve initState "SUBSCRIBE:type=float,tag=Foo" =
        some (initState, [])) :=
  ⟨⟨rfl, rfl⟩, c5_amended envResolve initState "sim/x" rfl rfl⟩

theorem mapLookup_writePairs_notMem {ps : List (String × String)} (m : List (String × String))
    (k : String) (h : k ∉ ps.map Prod.fst) :
    mapLookup (writePairs m ps) k = mapLookup m k := by
  induction ps generalizing m with
  | nil => rfl
  | cons p t ih =>
      simp only [List.map_cons, List.mem_cons, not_or] at h
      show mapLookup (writePairs (mapUpsert m p.1 p.2) t) k = _
      rw [ih _ h.2, mapLookup_upsert_ne _ _ _ _ h.1]

theorem isSome_writePairs_mono {ps : List (String × String)} (m : List (String × String))
    (k : String) (h : (mapLookup m k).isSome) :
    (mapLookup (writePairs m ps) k).isSome := by
  induction ps generalizing m with
  | nil => exact h
  | cons p t ih =>
      show (mapLookup (writePairs (mapUpsert m p.1 p.2) t) k).isSome
      exact ih _ (mapLookup_upsert_isSome _ _ _ _ h)

theorem isSome_writePairs_mem {ps : List (String × String)} (m : List (String × String))
    (k : String) (h : k ∈ ps.map Prod.fst) :
    (mapLookup (writePairs m ps) k).isSome := by
  induction ps generalizing m with
  | nil => cases h
  | cons p t ih =>
      show (mapLookup (writePairs (mapUpsert m p.1 p.2) t) k).isSome
      simp only [List.map_cons, List.mem_cons] at h
      rcases h with h1 | h2
      · refine isSome_writePairs_mono _ _ ?_
        rw [h1, mapLookup_upsert_self]
        rfl
      · exact ih _ h2

theorem registryStep_isSome_mono (env : Env) (sub : DataRefSubscription)
    (m : List (String × String)) (k : String) (h : (mapLookup m k).isSome) :
    (mapLookup (registryStep env m sub) k).isSome := by
  unfold registryStep
  split
  · exact mapLookup_upsert_isSome _ _ _ _ h
  · split
    · exact mapLookup_upsert_isSome _ _ _ _ h
    · split
      · exact mapLookup_upsert_isSome _ _ _ _ h
      · exact h

theorem registryFold_isSome_mono (env : Env) (l : List DataRefSubscription)
    (m : List (String × String)) (k : String) (h : (mapLookup m k).isSome) :
    (mapLookup (l.foldl (registryStep env) m) k).isSome := by
  induction l generalizing m with
  | nil => exact h
  | cons s t ih => exact ih _ (registryStep_isSome_mono env s m k h)

theorem registryFold_isSome_mem (env : Env) (l : List DataRefSubscription)
    (m : List (String × String)) (sub : DataRefSubscription) (hs : sub ∈ l)
    (ht : sub.type = "int" ∨ sub.type = "float" ∨ sub.type = "double") :
    (mapLookup (l.foldl (registryStep env) m) sub.key).isSome := by
  induction l generalizing m with
  | nil => cases hs
  | cons s t ih =>
      rcases List.mem_cons.mp hs with h1 | h2
      · subst h1
        refine registryFold_isSome_mono env t _ _ ?_
        rcases ht with h | h | h
        · unfold registryStep
          rw [h, if_pos rfl, mapLookup_upsert_self]
          rfl
        · unfold registryStep
          rw [h, if_neg (by decide), if_pos rfl, mapLookup_upsert_self]
          rfl
        · unfold registryStep
          rw [h, if_neg (by decide), if_neg (by decide), if_pos rfl, mapLookup_upsert_self]
          rfl
      · exact ih _ h2

theorem builtinPairs_keys (env : Env) (name : String) (numEngines : ℤ) (oC oJ oP : Bool) :
    (builtinPairs env name numEngines oC oJ oP).map Prod.fst = builtinKeyList := rfl

theorem collectACStage_subs (env : Env) (st : PluginState) :
    (collectACStage env st).subscribedDataRefs = st.subscribedDataRefs := by
  unfold collectACStage
  dsimp only
  split <;> split <;> rfl

theorem collect_telemetry_map (env : Env) (st : PluginState) :
    (CollectTelemetryData env st).telemetryData = collectedMap env st := by
  simp only [CollectTelemetryData]

/-- C7: registering the same key twice (here via `RegisterDataRef`, as both
startup registration and the SUBSCRIBE command do) makes the next
snapshot's value for that key the one formatted from the second
registration's dataref, precision and conversion factor — the last
registration for a key wins in every observable lookup, for any oracle and
prior state, as long as the key is not one of the built-in per-frame keys
(which are written after the registry loop). -/
theorem c7_theorem (env : Env) (st : PluginState) (p₁ p₂ k h₁ h₂ : String)
    (prec₁ prec₂ : ℤ) (conv₁ conv₂ : Frac)
    (hr₁ : env.findDataRef p₁ = some h₁) (hr₂ : env.findDataRef p₂ = some h₂)
    (hk : k ∉ builtinKeyList) :
    mapLookup (CollectTelemetryData env
        (RegisterDataRef env (RegisterDataRef env st p₁ k "float" prec₁ conv₁)
          p₂ k "float" prec₂ conv₂)).telemetryData k =
      some (FloatToString (env.getf h₂ * conv₂) prec₂.toNat) := by
  have hsub : (RegisterDataRef env (RegisterDataRef env st p₁ k "float" prec₁ conv₁)
      p₂ k "float" prec₂ conv₂).subscribedDataRefs =
      (st.subscribedDataRefs ++ [⟨h₁, k, "float", prec₁, conv₁⟩]) ++
        [⟨h₂, k, "float", prec₂, conv₂⟩] := by
    unfold RegisterDataRef
    simp only [hr₁, hr₂]
  have hpf : k ∉ (builtinPairs env
      (collectACStage env (RegisterDataRef env
        (RegisterDataRef env st p₁ k "float" prec₁ conv₁)
        p₂ k "float" prec₂ conv₂)).gPrevAircraftName
      (collectACStage env (RegisterDataRef env
        (RegisterDataRef env st p₁ k "float" prec₁ conv₁)
        p₂ k "float" prec₂ conv₂)).gActiveNumEngines
      (RegisterDataRef env (RegisterDataRef env st p₁ k "float" prec₁ conv₁)
        p₂ k "float" prec₂ conv₂).overrideCollective
      (RegisterDataRef env (RegisterDataRef env st p₁ k "float" prec₁ conv₁)
        p₂ k "float" prec₂ conv₂).overrideJoystick
      (RegisterDataRef env (RegisterDataRef env st p₁ k "float" prec₁ conv₁)
        p₂ k "float" prec₂ conv₂).overridePedals).map Prod.fst := by
    rw [builtinPairs_keys]
    exact hk
  rw [collect_telemetry_map]
  unfold collectedMap
  rw [mapLookup_writePairs_notMem _ _ hpf]
  rw [collectACStage_subs, hsub, List.foldl_append, List.foldl_append]
  exact mapLookup_upsert_self _ _ _

/-- Witness for C7 at a concrete oracle: the key `Foo` registered twice
through the resolving oracle; the snapshot shows the second registration's
formatting. -/
theorem c7_witness :
    (envResolve.findDataRef "sim/x" = some "sim/x" ∧
      envResolve.findDataRef "sim/x" = some "sim/x" ∧
      ("Foo" : String) ∉ builtinKeyList) ∧
    mapLookup (CollectTelemetryData envResolve
        (RegisterDataRef envResolve
          (RegisterDataRef envResolve initState "sim/x" "Foo" "float" 1 ⟨3, 1⟩)
          "sim/x" "Foo" "float" 2 ⟨2, 1⟩)).telemetryData "Foo" =
      some (FloatToString (envResolve.getf "sim/x" * ⟨2, 1⟩) (2 : ℤ).toNat) :=
  ⟨⟨rfl, rfl, by decide⟩,
    c7_theorem envResolve initState "sim/x" "sim/x" "Foo" "sim/x" "sim/x" 1 2 ⟨3, 1⟩ ⟨2, 1⟩
      rfl rfl (by decide)⟩

/-- C8 counterexample: a registry entry of the (unsupported) type `string`
under the key `Foo` never reaches the snapshot — the registry loop's
dispatch only handles `int`, `float` and `double` and skips everything
else, so the Source-Registry key `Foo` is absent from the published map,
refuting "every key present in the Source Registry appears in the
snapshot". -/
theorem c8_counterexample :
    stC8.subscribedDataRefs.map (fun s => s.key) = ["Foo"] ∧
    mapLookup (CollectTelemetryData env0 stC8).telemetryData "Foo" = none :=
  ⟨rfl, rfl⟩

/-- C8 amended: after every frame tick, every registry key whose entry has
one of the supported types `int`, `float`, `double` appears in the
published snapshot, and the built-in per-frame keys are present regardless
of registry contents; registry entries of any other type string are
skipped by the collection loop. -/
theorem c8_amended (env : Env) (st : PluginState) (sub : DataRefSubscription) (k : String)
    (hs : sub ∈ st.subscribedDataRefs)
    (ht : sub.type = "int" ∨ sub.type = "float" ∨ sub.type = "double")
    (hk : k ∈ builtinKeyList) :
    (mapLookup (CollectTelemetryData env st).telemetryData sub.key).isSome ∧
    (mapLookup (CollectTelemetryData env st).telemetryData k).isSome := by
  rw [collect_telemetry_map]
  unfold collectedMap
  constructor
  · refine isSome_writePairs_mono _ _ ?_
    refine registryFold_isSome_mem env _ _ sub ?_ ht
    rw [collectACStage_subs]
    exact hs
  · refine isSome_writePairs_mem _ _ ?_
    rw [builtinPairs_keys]
    exact hk

/-- Witness for the amended C8 at a concrete oracle and a one-entry
registry of type `float`. -/
theorem c8_witness :
    ((⟨"h", "Bar", "float", 3, 1⟩ : DataRefSubscription) ∈ stFloatSub.subscribedDataRefs ∧
      (("float" : String) = "int" ∨ ("float" : String) = "float" ∨
        ("float" : String) = "double") ∧
      ("TAS" : String) ∈ builtinKeyList) ∧
    ((mapLookup (CollectTelemetryData env0 stFloatSub).telemetryData "Bar").isSome ∧
      (mapLookup (CollectTelemetryData env0 stFloatSub).telemetryData "TAS").isSome) :=
  ⟨⟨by decide, by decide, by decide⟩,
    c8_amended env0 stFloatSub ⟨"h", "Bar", "float", 3, 1⟩ "TAS"
      (by decide) (by decide) (by decide)⟩

theorem tick_writes (env : Env) (st : PluginState) :
    (tick env st).writes = (SendAxisPosition st).2 := by
  simp only [tick]

/-- C6: from any state, `OVERRIDE:joystick=true` followed immediately by
`AXIS:jx=0.5,jy=-0.2` leaves the joystick group overridden with the axis
map holding jx = 0.5 and jy = -0.2, and the next frame tick's write trace
contains exactly one write to the simulator's joystick roll channel (value
0.5) and exactly one to the pitch channel (value -0.2). -/
theorem c6_theorem (env₁ env₂ env₃ : Env) (st : PluginState) :
    ∃ st₂ : PluginState,
      (processDatagram env₁ st "OVERRIDE:joystick=true").bind
          (fun r => processDatagram env₂ r.1 "AXIS:jx=0.5,jy=-0.2") = some (st₂, []) ∧
      st₂.overrideJoystick = true ∧
      (mapLookup st₂.axisDataMap "jx").map Frac.toRat = some (1 / 2 : ℚ) ∧
      (mapLookup st₂.axisDataMap "jy").map Frac.toRat = some (-(1 / 5) : ℚ) ∧
      ((tick env₃ st₂).writes.filter (fun w => w.ref == gRollRatio) =
          [SimWrite.setf gRollRatio ⟨5, 10⟩] ∧
        (tick env₃ st₂).writes.filter (fun w => w.ref == gPitchRatio) =
          [SimWrite.setf gPitchRatio ⟨-2, 10⟩]) ∧
      Frac.toRat ⟨5, 10⟩ = 1 / 2 ∧ Frac.toRat ⟨-2, 10⟩ = -(1 / 5) := by
  have h1 : mapLookup (mapUpsert (mapUpsert st.axisDataMap "jx" (⟨5, 10⟩ : Frac)) "jy"
      ⟨-2, 10⟩) "jx" = some ⟨5, 10⟩ := by
    rw [mapLookup_upsert_ne _ _ _ _ (by decide), mapLookup_upsert_self]
  have h2 : mapLookup (mapUpsert (mapUpsert st.axisDataMap "jx" (⟨5, 10⟩ : Frac)) "jy"
      ⟨-2, 10⟩) "jy" = some ⟨-2, 10⟩ := mapLookup_upsert_self _ _ _
  refine ⟨{ st with
      overrideJoystick := true
      axisDataMap := mapUpsert (mapUpsert st.axisDataMap "jx" ⟨5, 10⟩) "jy" ⟨-2, 10⟩ },
    rfl, rfl, ?_, ?_, ?_, ?_, ?_⟩
  · rw [h1]
    simp [Frac.toRat]
    norm_num
  · rw [h2]
    simp [Frac.toRat]
    norm_num
  · rw [tick_writes]
    cases hP : st.overridePedals <;> cases hC : st.overrideCollective <;>
      simp [SendAxisPosition, mapGetIns, h1, h2, hP, hC, SimWrite.ref,
        gRollRatio, gPitchRatio, gYawRatio, gCollectiveRatio]
  · simp [Frac.toRat]
    norm_num
  · simp [Frac.toRat]
    norm_num

theorem readUpToConsume_notMem (delim : Char) (l : List Char) (h : delim ∉ l) :
    readUpToConsume delim l = (l, []) := by
  induction l with
  | nil => rfl
  | cons c cs ih =>
      simp only [List.mem_cons, not_or] at h
      have hne : ¬ c = delim := fun hc => h.1 hc.symm
      simp only [readUpToConsume, if_neg hne, ih h.2]

theorem getlineTokensAux_nil (delim : Char) (n : ℕ) :
    getlineTokensAux delim n [] = [] := by
  cases n <;> rfl

theorem getlineTokens_single (delim : Char) (s : String) (h : delim ∉ s.data)
    (h2 : s.data ≠ []) : getlineTokens delim s = [s] := by
  unfold getlineTokens
  cases hs : s.data with
  | nil => exact absurd hs h2
  | cons c cs =>
      rw [hs] at h
      show getlineTokensAux delim ((cs.length + 1) + 1) (c :: cs) = [s]
      unfold getlineTokensAux
      rw [readUpToConsume_notMem delim (c :: cs) h]
      dsimp only
      rw [getlineTokensAux_nil, ← hs]

theorem splitAtFirst_notMem (delim : Char) (l : List Char) (h : delim ∉ l) :
    splitAtFirst delim l = none := by
  induction l with
  | nil => rfl
  | cons c cs ih =>
      simp only [List.mem_cons, not_or] at h
      have hne : ¬ c = delim := fun hc => h.1 hc.symm
      simp only [splitAtFirst, if_neg hne, ih h.2, Option.map_none']

theorem splitAtFirst_append (delim : Char) (l₁ l₂ : List Char) (h : delim ∉ l₁) :
    splitAtFirst delim (l₁ ++ delim :: l₂) = some (l₁, l₂) := by
  induction l₁ with
  | nil => simp [splitAtFirst]
  | cons c cs ih =>
      simp only [List.mem_cons, not_or] at h
      have hne : ¬ c = delim := fun hc => h.1 hc.symm
      simp only [List.cons_append, splitAtFirst, if_neg hne, List.append_eq, ih h.2,
        Option.map_some']

theorem mapGetIns_fst (m : List (String × Frac)) (k : String) :
    (mapGetIns m k).1 = (mapLookup m k).getD 0 := by
  unfold mapGetIns
  cases mapLookup m k <;> rfl

theorem mapGetIns_of_isSome (m : List (String × Frac)) (k : String) (v : Frac)
    (h : mapLookup m k = some v) : mapGetIns m k = (v, m) := by
  unfold mapGetIns
  rw [h]

theorem processAxisTokens_isSome_mono (ts : List String) (m m' : List (String × Frac))
    (h : processAxisTokens m ts = some m') (c : String)
    (hc : (mapLookup m c).isSome) : (mapLookup m' c).isSome := by
  induction ts generalizing m with
  | nil =>
      simp only [processAxisTokens, Option.some.injEq] at h
      rw [← h]
      exact hc
  | cons t rest ih =>
      simp only [processAxisTokens] at h
      cases hsp : splitAtFirst '=' t.data with
      | none =>
          rw [hsp] at h
          exact ih _ h hc
      | some p =>
          rw [hsp] at h
          dsimp only at h
          cases hst : stofM (String.mk p.2) with
          | none => rw [hst] at h; cases h
          | some v =>
              rw [hst] at h
              dsimp only at h
              exact ih _ h (mapLookup_upsert_isSome _ _ _ _ hc)

theorem processDatagram_axis_upsert (env : Env) (st : PluginState) (k v : String) (x : Frac)
    (hk1 : ',' ∉ k.data) (hk2 : '=' ∉ k.data) (hv : ',' ∉ v.data)
    (hx : stofM v = some x) :
    processDatagram env st ("AXIS:" ++ k ++ "=" ++ v) =
      some ({ st with axisDataMap := mapUpsert st.axisDataMap k x }, []) := by
  have hassoc : ("AXIS:" ++ k ++ "=" ++ v) = "AXIS:" ++ (k ++ ("=" ++ v)) := by
    rw [str_append_assoc, str_append_assoc]
  rw [hassoc]
  have hdata : (k ++ ("=" ++ v)).data = k.data ++ '=' :: v.data := rfl
  have hmem : ',' ∉ (k ++ ("=" ++ v)).data := by
    rw [hdata]
    simp only [List.mem_append, List.mem_cons, not_or]
    exact ⟨hk1, by decide, hv⟩
  have hne : (k ++ ("=" ++ v)).data ≠ [] := by
    rw [hdata]
    cases k.data <;> simp
  have hproc : processDatagram env st ("AXIS:" ++ (k ++ ("=" ++ v))) =
      match processAxisTokens st.axisDataMap (getlineTokens ',' (k ++ ("=" ++ v))) with
      | none => none
      | some m => some ({ st with axisDataMap := m }, []) := rfl
  rw [hproc, getlineTokens_single _ _ hmem hne]
  have hsp : splitAtFirst '=' (k ++ ("=" ++ v)).data = some (k.data, v.data) := by
    rw [hdata]
    exact splitAtFirst_append '=' k.data v.data hk2
  simp only [processAxisTokens]
  rw [hsp]
  dsimp only
  rw [show String.mk v.data = v from rfl, hx]

theorem processDatagram_axisMap_isSome (env : Env) (st : PluginState) (d : String)
    (st' : PluginState) (w : List SimWrite) (c : String)
    (h : processDatagram env st d = some (st', w))
    (hc : (mapLookup st.axisDataMap c).isSome) :
    (mapLookup st'.axisDataMap c).isSome := by
  unfold processDatagram ProcessReceivedData at h
  split at h
  · split at h
    · cases h
    · rename_i m hp
      simp only [Option.some.injEq, Prod.mk.injEq] at h
      obtain ⟨h2, -⟩ := h
      rw [← h2]
      exact processAxisTokens_isSome_mono _ _ _ hp _ hc
  · split at h
    · split at h
      · simp only [Option.some.injEq, Prod.mk.injEq] at h
        obtain ⟨h4, -⟩ := h
        rw [← h4]
        exact hc
      · dsimp only at h
        split_ifs at h <;>
          · simp only [Option.some.injEq, Prod.mk.injEq] at h
            obtain ⟨h4, -⟩ := h
            rw [← h4]
            exact hc
    · split at h
      · dsimp only at h
        split at h
        · simp only [Option.some.injEq, Prod.mk.injEq] at h
          obtain ⟨h4, -⟩ := h
          rw [← h4]
          unfold RegisterDataRef
          cases env.findDataRef
              ((mapLookup (parseSubscribeParams (splitDatagram d).2) "dataref").getD "") <;>
            exact hc
        · cases h
      · simp only [Option.some.injEq, Prod.mk.injEq] at h
        obtain ⟨h4, -⟩ := h
        rw [← h4]
        exact hc

theorem sendAxisWrites_canonical (st : PluginState)
    (hpres : ∀ c ∈ canonicalAxisKeys, (mapLookup st.axisDataMap c).isSome) :
    ∀ w ∈ (SendAxisPosition st).2,
      w = SimWrite.setf gRollRatio ((mapLookup st.axisDataMap "jx").getD 0) ∨
      w = SimWrite.setf gPitchRatio ((mapLookup st.axisDataMap "jy").getD 0) ∨
      w = SimWrite.setf gYawRatio ((mapLookup st.axisDataMap "px").getD 0) ∨
      w = SimWrite.setf gCollectiveRatio ((mapLookup st.axisDataMap "cy").getD 0) := by
  obtain ⟨vjx, hjx⟩ := Option.isSome_iff_exists.mp (hpres "jx" (by decide))
  obtain ⟨vjy, hjy⟩ := Option.isSome_iff_exists.mp (hpres "jy" (by decide))
  obtain ⟨vpx, hpx⟩ := Option.isSome_iff_exists.mp (hpres "px" (by decide))
  obtain ⟨vcy, hcy⟩ := Option.isSome_iff_exists.mp (hpres "cy" (by decide))
  intro w hw
  cases hJ : st.overrideJoystick <;> cases hP : st.overridePedals <;>
    cases hC : st.overrideCollective <;>
    · simp only [SendAxisPosition, hJ, hP, hC, if_true, if_false,
        mapGetIns_of_isSome _ _ _ hjx, mapGetIns_of_isSome _ _ _ hjy,
        mapGetIns_of_isSome _ _ _ hpx, mapGetIns_of_isSome _ _ _ hcy,
        Bool.false_eq_true, List.append_nil, List.nil_append,
        List.mem_append, List.mem_cons, List.not_mem_nil, or_false, false_or] at hw <;>
      · simp only [hjx, hjy, hpx, hcy, Option.getD_some]
        tauto

/-- C10: an `AXIS` pair with a parseable value updates the axis map at its
key even when the key is not canonical (the entry is inserted, not
ignored); the four canonical keys are present in the initial map and their
presence is preserved by processing any datagram; and every write of the
per-frame write-through targets one of the four simulator axis channels
with the map value of the corresponding canonical key. -/
theorem c10_theorem (env : Env) (st : PluginState) (k v : String) (x : Frac)
    (hk1 : ',' ∉ k.data) (hk2 : '=' ∉ k.data) (hv : ',' ∉ v.data)
    (hx : stofM v = some x) :
    (processDatagram env st ("AXIS:" ++ k ++ "=" ++ v) =
        some ({ st with axisDataMap := mapUpsert st.axisDataMap k x }, []) ∧
      mapLookup (mapUpsert st.axisDataMap k x) k = some x) ∧
    (∀ c ∈ canonicalAxisKeys, (mapLookup initState.axisDataMap c).isSome) ∧
    (∀ d st' w, processDatagram env st d = some (st', w) →
      ∀ c, (mapLookup st.axisDataMap c).isSome → (mapLookup st'.axisDataMap c).isSome) ∧
    ((∀ c ∈ canonicalAxisKeys, (mapLookup st.axisDataMap c).isSome) →
      ∀ w ∈ (SendAxisPosition st).2,
        w = SimWrite.setf gRollRatio ((mapLookup st.axisDataMap "jx").getD 0) ∨
        w = SimWrite.setf gPitchRatio ((mapLookup st.axisDataMap "jy").getD 0) ∨
        w = SimWrite.setf gYawRatio ((mapLookup st.axisDataMap "px").getD 0) ∨
        w = SimWrite.setf gCollectiveRatio ((mapLookup st.axisDataMap "cy").getD 0)) :=
  ⟨⟨processDatagram_axis_upsert env st k v x hk1 hk2 hv hx, mapLookup_upsert_self _ _ _⟩,
    by decide,
    fun d st' w h c hc => processDatagram_axisMap_isSome env st d st' w c h hc,
    fun hpres => sendAxisWrites_canonical st hpres⟩

/-- Witness for C10 at the non-canonical key `throttle` and value `0.25`. -/
theorem c10_witness :
    ((',' ∉ ("throttle" : String).data) ∧ ('=' ∉ ("throttle" : String).data) ∧
      (',' ∉ ("0.25" : String).data) ∧ stofM "0.25" = some ⟨25, 100⟩) ∧
    ((processDatagram env0 initState ("AXIS:" ++ "throttle" ++ "=" ++ "0.25") =
        some ({ initState with
          axisDataMap := mapUpsert initState.axisDataMap "throttle" ⟨25, 100⟩ }, []) ∧
      mapLookup (mapUpsert initState.axisDataMap "throttle" ⟨25, 100⟩) "throttle" =
        some ⟨25, 100⟩) ∧
    (∀ c ∈ canonicalAxisKeys, (mapLookup initState.axisDataMap c).isSome) ∧
    (∀ d st' w, processDatagram env0 initState d = some (st', w) →
      ∀ c, (mapLookup initState.axisDataMap c).isSome →
        (mapLookup st'.axisDataMap c).isSome) ∧
    ((∀ c ∈ canonicalAxisKeys, (mapLookup initState.axisDataMap c).isSome) →
      ∀ w ∈ (SendAxisPosition initState).2,
        w = SimWrite.setf gRollRatio ((mapLookup initState.axisDataMap "jx").getD 0) ∨
        w = SimWrite.setf gPitchRatio ((mapLookup initState.axisDataMap "jy").getD 0) ∨
        w = SimWrite.setf gYawRatio ((mapLookup initState.axisDataMap "px").getD 0) ∨
        w = SimWrite.setf gCollectiveRatio
          ((mapLookup initState.axisDataMap "cy").getD 0))) :=
  ⟨⟨by decide, by decide, by decide, by decide⟩,
    c10_theorem env0 initState "throttle" "0.25" ⟨25, 100⟩
      (by decide) (by decide) (by decide) (by decide)⟩
